import Mathlib

/-!
Shallow embedding of the illustrator-mcp-server bridge
(`src/illustrator/server.py`) and proofs about its dispatcher,
response mapping, script construction and temp-file handling.

External effects (the `osascript` child process, the filesystem state
after the capture subprocess ran, the image library) are modelled as
explicit environment records of uninterpreted functions, so every
theorem quantifies over all possible behaviours of those collaborators.
The spec notes that the repository also contains a second, file-based
bridge variant (harness wrapper, sentinel mapping); that variant is not
part of the embedded source file, so its pieces are modelled from the
spec and marked as such.
-/

namespace Illustrator

/-- Python `str.replace` restricted to a single-character pattern: every
occurrence of `c` is replaced by `rep`, scanning left to right. -/
def pyReplaceChar (c : Char) (rep : List Char) : List Char → List Char
  | [] => []
  | a :: rest =>
      if a = c then rep ++ pyReplaceChar c rep rest
      else a :: pyReplaceChar c rep rest

/-- Whitespace characters stripped by Python `str.strip()`. -/
def pyIsSpace (c : Char) : Bool :=
  c = ' ' ∨ c = '\t' ∨ c = '\n' ∨ c = '\r' ∨ c = '\x0b' ∨ c = '\x0c'

/-- Python `str.strip()`: drop leading and trailing whitespace. -/
def pyStrip (s : String) : String :=
  String.mk (((s.data.dropWhile pyIsSpace).reverse.dropWhile pyIsSpace).reverse)

/-- Python `str.startswith(pre)`. -/
def pyStartsWith (s pre : String) : Bool :=
  pre.data.isPrefixOf s.data

/-- Result of `subprocess.run(..., capture_output=True, text=True)`. -/
structure RawResult where
  returncode : Int
  stdout : String
  stderr : String
deriving DecidableEq

/-- One MCP content item: `types.TextContent` or `types.ImageContent`
(the image constructor carries the MIME type and the base64 data). -/
inductive Content where
  | text : String → Content
  | image : String → String → Content
deriving DecidableEq

/-- Abstraction of a PIL image: its colour mode plus an opaque payload
identifying the pixel data. -/
structure IlImage where
  mode : String
  payload : Nat
deriving DecidableEq

/-- Environment for one `captureIllustrator` invocation: the fresh temp
path handed out by `tempfile.NamedTemporaryFile`, the outcome of the
`osascript` subprocess, the file sizes on disk after that subprocess ran
(`none` = the path does not exist), and the image library's behaviour
(`openImage` may raise, modelled as `Except.error`; `convertRGB`,
`saveJPEG` and `b64encode` are uninterpreted encoding functions). -/
structure CaptureEnv where
  screenshotPath : String
  captureResult : RawResult
  fileSize : String → Option Nat
  openImage : String → Except String IlImage
  convertRGB : IlImage → IlImage
  saveJPEG : IlImage → Nat → String
  b64encode : String → String

/-- Environment for one `runIllustratorScript` invocation: the outcome
of the `osascript` subprocess as a function of the script passed to it. -/
structure RunEnv where
  osascript : String → RawResult

/-- Everything observable about one `captureIllustrator` invocation: the
returned content list, the filesystem after the `finally` block ran, and
the scripts launched through `subprocess.run`. -/
structure CaptureTrace where
  content : List Content
  finalFs : String → Option Nat
  launched : List String

/-- What crosses the protocol boundary for one tool call, plus the list
of scripts launched through `subprocess.run` while handling it. -/
structure CallToolOutcome where
  content : List Content
  isError : Bool
  launched : List String

/-- Text of the capture AppleScript before the `%s` placeholder
(the placeholder is substituted with the screenshot path). -/
def captureScriptPre : String :=
"
            -- Save the current active application
            tell application \"System Events\"
                set frontApp to name of first process where frontmost is true
            end tell

            -- Activate Illustrator and wait for it to come to front
            tell application \"Adobe Illustrator\"
                activate
                delay 1.5
            end tell

            -- Get window position and dimensions
            tell application \"System Events\"
                tell process \"Adobe Illustrator\"
                    try
                        set frontWindow to first window
                        set \x7bx, y\x7d to position of frontWindow
                        set \x7bwidth, height\x7d to size of frontWindow

                        -- Format coordinates for screencapture
                        set windowInfo to \"\" & x & \",\" & y & \",\" & width & \",\" & height

                        -- Take the screenshot directly from AppleScript while Illustrator is frontmost
                        do shell script \"screencapture -R \" & quoted form of windowInfo & \" -x \x27\" & \""

/-- Text of the capture AppleScript after the `%s` placeholder. -/
def captureScriptPost : String :=
"\" & \"\x27\"

                        -- Return coordinates for verification
                        set captureResult to \"SUCCESS:\" & windowInfo
                    on error errMsg
                        set captureResult to \"ERROR: \" & errMsg
                    end try
                end tell
            end tell

            -- Return to the previous application if it wasn\x27t Illustrator
            if frontApp is not \"Adobe Illustrator\" then
                tell application frontApp
                    activate
                end tell
            end if

            return captureResult
        "

/-- The capture AppleScript, `capture_script` in the source: the
template with the screenshot path substituted for `%s`. -/
def captureScript (path : String) : String :=
  captureScriptPre ++ path ++ captureScriptPost

/-- Branch structure of `captureIllustrator` after the subprocess ran:
non-zero exit, then the `ERROR:` sentinel on stripped stdout, then the
missing-or-empty screenshot file, then the image pipeline (whose
`Image.open` may raise, landing in the `except` branch); the `SUCCESS:`
branch only prints to stderr and is invisible in the returned content. -/
def captureContent (env : CaptureEnv) : List Content :=
  if env.captureResult.returncode ≠ 0 then
    [Content.text ("Failed to capture Illustrator window: " ++ env.captureResult.stderr)]
  else
    let result_info := pyStrip env.captureResult.stdout
    if pyStartsWith result_info "ERROR:" then
      [Content.text ("Failed to capture Illustrator: " ++ result_info)]
    else
      match env.fileSize env.screenshotPath with
      | none => [Content.text "Screenshot file was not created or is empty"]
      | some n =>
        if n = 0 then
          [Content.text "Screenshot file was not created or is empty"]
        else
          match env.openImage env.screenshotPath with
          | Except.error e =>
              [Content.text ("Exception while capturing Illustrator window: " ++ e)]
          | Except.ok img =>
              let img2 := if img.mode = "RGBA" ∨ img.mode = "LA" then env.convertRGB img else img
              [Content.image "image/jpeg" (env.b64encode (env.saveJPEG img2 85))]

/-- The whole `captureIllustrator` invocation: body result, plus the
`finally` block (`os.unlink` of the screenshot path when it exists)
applied on every exit path, plus the single `osascript` launch. -/
def captureIllustrator (env : CaptureEnv) : CaptureTrace :=
  { content := captureContent env
    finalFs := fun p => if p = env.screenshotPath then none else env.fileSize p
    launched := [captureScript env.screenshotPath] }

/-- Line 165 of the source: `code.replace('"', '\\"').replace("\n", "\\n")`. -/
def escapeCode (code : String) : String :=
  String.mk (pyReplaceChar '\n' ['\\', 'n']
    (pyReplaceChar '"' ['\\', '"'] code.data))

/-- The inline-variant control script, `applescript` in
`runIllustratorScript`: the escaped code spliced into a
`do javascript "…"` block. -/
def runApplescript (code : String) : String :=
  "\n        tell application \"Adobe Illustrator\"\n            do javascript \""
    ++ escapeCode code ++ "\"\n        end tell\n    "

/-- The `runIllustratorScript` function of the source: launch
`osascript` on the control script; non-zero exit yields the error text
with stderr, otherwise a success message, with stdout appended when
non-empty. Returns the content list and the launched scripts. -/
def runIllustratorScript (renv : RunEnv) (code : String) :
    List Content × List String :=
  let script := runApplescript code
  let result := renv.osascript script
  if result.returncode ≠ 0 then
    ([Content.text ("Error executing script: " ++ result.stderr)], [script])
  else if result.stdout ≠ "" then
    ([Content.text ("Script executed successfully" ++ "\nOutput: " ++ result.stdout)],
     [script])
  else
    ([Content.text "Script executed successfully"], [script])

/-- The `handleCallTool` dispatcher: `view` and `run` return content
(`Except.ok`); an unknown name raises `ValueError(f"Unknown tool: {name}")`,
modelled as `Except.error`. `arguments` is the optional argument mapping;
Python's `not arguments or "code" not in arguments` is a failed lookup of
`"code"` (an absent or empty mapping has no `"code"` key). -/
def handleCallTool (cenv : CaptureEnv) (renv : RunEnv) (name : String)
    (arguments : Option (List (String × String))) :
    Except String (List Content × List String) :=
  if name = "view" then
    Except.ok ((captureIllustrator cenv).content, (captureIllustrator cenv).launched)
  else if name = "run" then
    match arguments with
    | none => Except.ok ([Content.text "No code provided"], [])
    | some args =>
      match args.lookup "code" with
      | none => Except.ok ([Content.text "No code provided"], [])
      | some code => Except.ok (runIllustratorScript renv code)
  else
    Except.error ("Unknown tool: " ++ name)

/-- Modelled from the spec: the tool-invocation protocol layer around the
registered handler is an external collaborator not part of the embedded
source file; per the spec, every failure path is converted to a structured
error response, so a raised fault becomes a text response flagged as an
error and never propagates across the protocol boundary. -/
def protocolBoundary (r : Except String (List Content × List String)) :
    CallToolOutcome :=
  match r with
  | Except.ok (c, l) => { content := c, isError := false, launched := l }
  | Except.error msg => { content := [Content.text msg], isError := true, launched := [] }

/-- One full tool call as seen by the client: the dispatcher behind the
protocol boundary. -/
def dispatch (cenv : CaptureEnv) (renv : RunEnv) (name : String)
    (arguments : Option (List (String × String))) : CallToolOutcome :=
  protocolBoundary (handleCallTool cenv renv name arguments)

/-- The error sentinel prefix used on the textual return channel. -/
def sentinel : String := "ERROR:"

/-- Strip the leading sentinel (and the whitespace following it) from a
message; messages without the sentinel are returned unchanged. -/
def stripSentinel (s : String) : String :=
  if pyStartsWith s sentinel then
    String.mk ((s.data.drop sentinel.data.length).dropWhile pyIsSpace)
  else s

/-- Modelled from the spec: part (1) of the harness of the file-based
bridge variant (missing from the embedded source file) — a freshly
initialized log accumulator. -/
def logAccumInit : String := "var logLines = [];"

/-- Modelled from the spec: part (2) of the harness of the file-based
bridge variant — a `log` function appending its single string argument
to the accumulator. -/
def logFnDef : String :=
  "function log(message) \x7b logLines.push(message); \x7d"

/-- Modelled from the spec: part (3) of the harness of the file-based
bridge variant — a best-effort attempt to set the host application's
interaction level so interactive dialogs are suppressed. -/
def suppressDialogs : String :=
  "try \x7b app.userInteractionLevel = UserInteractionLevel.DONTDISPLAYALERTS; \x7d catch (e) \x7b\x7d"

/-- Modelled from the spec: part (5) of the harness of the file-based
bridge variant — the trailing expression joining the accumulated log
lines with newline separators, the value returned by the embedded
engine's execute-script call. -/
def joinLogExpr : String := "logLines.join(\"\\n\");"

/-- Harness text preceding the caller code: parts (1)–(3) in order. -/
def wrapPre : String :=
  logAccumInit ++ "\n" ++ logFnDef ++ "\n" ++ suppressDialogs ++ "\n"

/-- Harness text following the caller code: part (5). -/
def wrapPost : String := "\n" ++ joinLogExpr

/-- Modelled from the spec: `wrap(code)` of the Code Harness Builder of
the file-based bridge variant (missing from the embedded source file) —
the five parts in order, with the caller code verbatim as part (4). -/
def wrap (code : String) : String :=
  wrapPre ++ code ++ wrapPost

/-- Modelled from the spec: the control script built by `runScript` of
the file-based bridge variant (missing from the embedded source file) —
it tells the host application to execute the script file at the given
path and return its result. -/
def runScriptControl (scriptPath : String) : String :=
  "tell application \"Adobe Illustrator\"\n    do javascript file \""
    ++ scriptPath ++ "\"\nend tell"

/-- Modelled from the spec: `mapRunResult` of the Response Mapper of the
file-based bridge variant (missing from the embedded source file) — the
response is an error exactly when the exit code is non-zero or stdout
begins with the sentinel; a process error carries the raw stderr, a
host-side error carries the stdout message with the sentinel stripped,
and success embeds the captured output verbatim. Returns the error flag
and the text content. -/
def mapRunResult (raw : RawResult) : Bool × Content :=
  if raw.returncode ≠ 0 then
    (true, Content.text (stripSentinel raw.stderr))
  else if pyStartsWith raw.stdout sentinel then
    (true, Content.text (stripSentinel raw.stdout))
  else
    (false, Content.text raw.stdout)

/-- Environment for one invocation of the file-based run variant: the
fresh temp script path, the `osascript` behaviour, and the file contents
on disk before the invocation. -/
structure FileRunEnv where
  scriptPath : String
  osascript : String → RawResult
  fs : String → Option String

/-- Observable trace of one invocation of the file-based run variant. -/
structure FileRunTrace where
  isError : Bool
  content : Content
  writtenPath : String
  writtenText : String
  launched : List String
  finalFs : String → Option String

/-- Modelled from the spec: the run pipeline of the file-based bridge
variant (missing from the embedded source file) — write `wrap(code)` to
a fresh temp script file, launch the control script pointing at that
file, map the raw result, and release the temp file on every exit path. -/
def runScriptFileVariant (fenv : FileRunEnv) (code : String) : FileRunTrace :=
  let scriptText := wrap code
  let control := runScriptControl fenv.scriptPath
  let raw := fenv.osascript control
  let mapped := mapRunResult raw
  { isError := mapped.1
    content := mapped.2
    writtenPath := fenv.scriptPath
    writtenText := scriptText
    launched := [control]
    finalFs := fun p => if p = fenv.scriptPath then none else fenv.fs p }

/-- The error condition of the view pathway: non-zero exit, sentinel on
the stripped stdout, or a missing or zero-length screenshot file. -/
def captureErrCond (env : CaptureEnv) : Prop :=
  env.captureResult.returncode ≠ 0 ∨
  pyStartsWith (pyStrip env.captureResult.stdout) "ERROR:" = true ∨
  env.fileSize env.screenshotPath = none ∨
  env.fileSize env.screenshotPath = some 0

instance (env : CaptureEnv) : Decidable (captureErrCond env) := by
  unfold captureErrCond
  exact inferInstance

/-- A concrete capture environment for evaluating theorems on inputs:
the capture succeeds, the screenshot file has five bytes, the image
decodes to an RGBA image, and the encoding functions are simple tags. -/
def cenv0 : CaptureEnv :=
  { screenshotPath := "/tmp/shot.png"
    captureResult := { returncode := 0, stdout := "SUCCESS:1,2,3,4", stderr := "" }
    fileSize := fun p => if p = "/tmp/shot.png" then some 5 else none
    openImage := fun _ => Except.ok { mode := "RGBA", payload := 7 }
    convertRGB := fun i => { mode := "RGB", payload := i.payload }
    saveJPEG := fun _ _ => "JPEGBYTES"
    b64encode := fun s => "B64" ++ s }

/-- A concrete run environment: the child process exits cleanly with
empty output whatever script it is given. -/
def renv0 : RunEnv :=
  { osascript := fun _ => { returncode := 0, stdout := "", stderr := "" } }

/-- The run pathway launches exactly one subprocess, carrying the
control script built from the caller code. -/
theorem runIllustratorScript_launched (renv : RunEnv) (code : String) :
    (runIllustratorScript renv code).2 = [runApplescript code] := by
  simp only [runIllustratorScript]
  split
  · rfl
  · split <;> rfl

/-- The run pathway always returns a single text content item. -/
theorem runIllustratorScript_text (renv : RunEnv) (code : String) :
    ∃ s, (runIllustratorScript renv code).1 = [Content.text s] := by
  simp only [runIllustratorScript]
  split
  · exact ⟨_, rfl⟩
  · split <;> exact ⟨_, rfl⟩

/-- The view pathway returns a single content item: text on the error
branches, a JPEG image on the success branch. -/
theorem captureContent_shape (env : CaptureEnv) :
    (∃ s, captureContent env = [Content.text s]) ∨
    (∃ d, captureContent env = [Content.image "image/jpeg" d]) := by
  simp only [captureContent]
  split
  · exact Or.inl ⟨_, rfl⟩
  · split
    · exact Or.inl ⟨_, rfl⟩
    · split
      · exact Or.inl ⟨_, rfl⟩
      · split
        · exact Or.inl ⟨_, rfl⟩
        · split
          · exact Or.inl ⟨_, rfl⟩
          · exact Or.inr ⟨_, rfl⟩

/-- Claim C1: dispatching a tool name outside `{view, run}` yields a
structured error response whose text names the unrecognized tool, does
not propagate a fault across the protocol boundary, and launches no
subprocess. -/
theorem c1_unknown_tool (cenv : CaptureEnv) (renv : RunEnv) (name : String)
    (arguments : Option (List (String × String)))
    (hv : name ≠ "view") (hr : name ≠ "run") :
    dispatch cenv renv name arguments =
      { content := [Content.text ("Unknown tool: " ++ name)]
        isError := true
        launched := [] } := by
  simp [dispatch, handleCallTool, protocolBoundary, hv, hr]

/-- Witness for C1 at the spec's Scenario E input, tool name `delete`. -/
theorem c1_unknown_tool_witness :
    ("delete" : String) ≠ "view" ∧ ("delete" : String) ≠ "run" ∧
    dispatch cenv0 renv0 "delete" none =
      { content := [Content.text ("Unknown tool: " ++ "delete")]
        isError := true
        launched := [] } :=
  ⟨by decide, by decide,
   c1_unknown_tool cenv0 renv0 "delete" none (by decide) (by decide)⟩

/-- Claim C6: a `run` invocation with an absent argument mapping or a
mapping lacking the `code` key returns the validation-error text
response and launches no subprocess. -/
theorem c6_missing_code (cenv : CaptureEnv) (renv : RunEnv)
    (arguments : Option (List (String × String)))
    (h : arguments = none ∨
      ∃ args, arguments = some args ∧ args.lookup "code" = none) :
    dispatch cenv renv "run" arguments =
      { content := [Content.text "No code provided"]
        isError := false
        launched := [] } := by
  rcases h with h | ⟨args, rfl, hl⟩
  · subst h
    simp [dispatch, handleCallTool, protocolBoundary]
  · simp [dispatch, handleCallTool, protocolBoundary, hl]

/-- Witness for C6 at the spec's Scenario B input, `code` omitted. -/
theorem c6_missing_code_witness :
    ((none : Option (List (String × String))) = none ∨
      ∃ args, (none : Option (List (String × String))) = some args ∧
        args.lookup "code" = none) ∧
    dispatch cenv0 renv0 "run" none =
      { content := [Content.text "No code provided"]
        isError := false
        launched := [] } :=
  ⟨Or.inl rfl, c6_missing_code cenv0 renv0 none (Or.inl rfl)⟩

/-- Counterexample for C7: a `run` invocation whose `code` argument is
the empty string is not rejected — the dispatcher launches the host
automation subprocess and does not return the validation-error text. -/
theorem c7_empty_code_counterexample :
    (dispatch cenv0 renv0 "run" (some [("code", "")])).launched =
        [runApplescript ""] ∧
    (dispatch cenv0 renv0 "run" (some [("code", "")])).content ≠
        [Content.text "No code provided"] := by
  decide

/-- Claim C7 as amended: the dispatcher validates only the presence of
the `code` key; whenever the key is present, its value — the empty
string included — is passed to the host, and exactly one automation
subprocess is launched with the control script built from that value. -/
theorem c7_code_presence_only (cenv : CaptureEnv) (renv : RunEnv)
    (args : List (String × String)) (code : String)
    (h : args.lookup "code" = some code) :
    (dispatch cenv renv "run" (some args)).launched = [runApplescript code] := by
  simp only [dispatch, handleCallTool, protocolBoundary]
  simp [h, runIllustratorScript_launched]

/-- Witness for C7's amended statement at the empty-string input. -/
theorem c7_code_presence_only_witness :
    ([("code", "")].lookup "code" = some "") ∧
    (dispatch cenv0 renv0 "run" (some [("code", "")])).launched =
      [runApplescript ""] :=
  ⟨by decide, c7_code_presence_only cenv0 renv0 [("code", "")] "" (by decide)⟩

/-- Claim C4: on every exit path — success, application error, sentinel
error, missing file, or raised exception — the temporary artifact
created by the invocation is gone after the `finally`-scoped release
runs; this covers the screenshot file of the view pathway and the temp
script file of the file-based run variant. -/
theorem c4_temp_cleanup :
    (∀ env : CaptureEnv,
        (captureIllustrator env).finalFs env.screenshotPath = none) ∧
    (∀ (fenv : FileRunEnv) (code : String),
        (runScriptFileVariant fenv code).finalFs fenv.scriptPath = none) := by
  constructor
  · intro env
    simp [captureIllustrator]
  · intro fenv code
    simp [runScriptFileVariant]

/-- Claim C8: script construction is a deterministic function of the
caller code — building the inline control script or the harnessed script
twice on identical input yields byte-identical text. -/
theorem c8_script_deterministic (c₁ c₂ : String) (h : c₁ = c₂) :
    runApplescript c₁ = runApplescript c₂ ∧ wrap c₁ = wrap c₂ := by
  subst h
  exact ⟨rfl, rfl⟩

/-- Witness for C8 on a concrete code string. -/
theorem c8_script_deterministic_witness :
    ("log(1)" : String) = "log(1)" ∧
    runApplescript "log(1)" = runApplescript "log(1)" ∧
    wrap "log(1)" = wrap "log(1)" :=
  ⟨rfl, (c8_script_deterministic "log(1)" "log(1)" rfl).1,
    (c8_script_deterministic "log(1)" "log(1)" rfl).2⟩

/-- Claim C10: the escaping applied to caller code before inlining it in
the control script is not injective — the two-character sequence
backslash–`n` and an actual newline character at the same position
produce the identical escaped text and the identical control script. -/
theorem c10_escaping_not_injective :
    ("a\\nb" : String) ≠ "a\nb" ∧
    escapeCode "a\\nb" = escapeCode "a\nb" ∧
    runApplescript "a\\nb" = runApplescript "a\nb" := by
  decide

/-- Claim C2: for a valid run invocation of the file-based bridge
variant, the response is an error exactly when the exit code is non-zero
or stdout begins with the sentinel; a process error carries the stderr
message (sentinel-stripped), a host-side error carries the stdout
message with the sentinel stripped, and success embeds the captured
output verbatim. -/
theorem c2_run_error_iff (raw : RawResult) :
    ((mapRunResult raw).1 = true ↔
        (raw.returncode ≠ 0 ∨ pyStartsWith raw.stdout sentinel = true)) ∧
    (raw.returncode ≠ 0 →
        (mapRunResult raw).2 = Content.text (stripSentinel raw.stderr)) ∧
    (raw.returncode = 0 → pyStartsWith raw.stdout sentinel = true →
        (mapRunResult raw).2 = Content.text (stripSentinel raw.stdout)) ∧
    (raw.returncode = 0 → pyStartsWith raw.stdout sentinel = false →
        (mapRunResult raw).2 = Content.text raw.stdout) := by
  by_cases h1 : raw.returncode = 0
  · cases hb : pyStartsWith raw.stdout sentinel with
    | false =>
        refine ⟨iff_of_false (by simp [mapRunResult, h1, hb]) ?_, ?_, ?_, ?_⟩
        · rintro (hc | hc)
          · exact hc h1
          · exact absurd hc (by decide)
        · intro hc
          exact absurd h1 hc
        · intro _ hc
          exact absurd hc (by decide)
        · intro _ _
          simp [mapRunResult, h1, hb]
    | true =>
        refine ⟨iff_of_true (by simp [mapRunResult, h1, hb]) (Or.inr rfl), ?_, ?_, ?_⟩
        · intro hc
          exact absurd h1 hc
        · intro _ _
          simp [mapRunResult, h1, hb]
        · intro _ hc
          exact absurd hc (by decide)
  · refine ⟨iff_of_true (by simp [mapRunResult, h1]) (Or.inl h1), ?_, ?_, ?_⟩
    · intro _
      simp [mapRunResult, h1]
    · intro hc
      exact absurd hc h1
    · intro hc
      exact absurd hc h1

/-- Witness for C2 at the spec's Scenario D input: exit code zero and
stdout `ERROR: Object not found` map to an error response whose text is
the message stripped of the sentinel prefix. -/
theorem c2_run_error_iff_witness :
    (mapRunResult { returncode := 0, stdout := "ERROR: Object not found", stderr := "" }).1
        = true ∧
    (mapRunResult { returncode := 0, stdout := "ERROR: Object not found", stderr := "" }).2
        = Content.text "Object not found" := by
  have h := c2_run_error_iff
    { returncode := 0, stdout := "ERROR: Object not found", stderr := "" }
  refine ⟨h.1.mpr (Or.inr (by decide)), ?_⟩
  rw [h.2.2.1 rfl (by decide)]
  decide

/-- Claim C3: in the file-based bridge variant, the script handed to the
embedded engine is the caller code wrapped, in order, by the log
accumulator, the `log` function, the dialog-suppression attempt, the
verbatim caller code, and the trailing join expression; that wrapped
text is written to the temp script file, and the single launched control
script tells the host application to execute that script file. -/
theorem c3_wrap_structure (fenv : FileRunEnv) (code : String) :
    (runScriptFileVariant fenv code).writtenText =
        logAccumInit ++ "\n" ++ logFnDef ++ "\n" ++ suppressDialogs ++ "\n"
          ++ code ++ "\n" ++ joinLogExpr ∧
    (runScriptFileVariant fenv code).writtenPath = fenv.scriptPath ∧
    (runScriptFileVariant fenv code).launched = [runScriptControl fenv.scriptPath] ∧
    runScriptControl fenv.scriptPath =
      "tell application \"Adobe Illustrator\"\n    do javascript file \""
        ++ fenv.scriptPath ++ "\"\nend tell" := by
  refine ⟨?_, rfl, rfl, rfl⟩
  simp [runScriptFileVariant, wrap, wrapPre, wrapPost, String.append_assoc]

/-- Claim C5: with a decodable image, the view pathway returns an error
text response exactly when the capture process exits non-zero, the
stripped stdout carries the sentinel, or the screenshot file is missing
or zero-length; otherwise it returns one image content item holding the
base64 encoding of the JPEG re-encoding (quality 85) of the image,
alpha-flattened when its mode is RGBA or LA, tagged `image/jpeg`. -/
theorem c5_view_mapping (env : CaptureEnv) (img : IlImage)
    (himg : env.openImage env.screenshotPath = Except.ok img) :
    ((∃ s, captureContent env = [Content.text s]) ↔ captureErrCond env) ∧
    (¬ captureErrCond env →
      captureContent env =
        [Content.image "image/jpeg" (env.b64encode (env.saveJPEG
          (if img.mode = "RGBA" ∨ img.mode = "LA" then env.convertRGB img else img)
          85))]) := by
  by_cases h1 : env.captureResult.returncode = 0
  case neg =>
    refine ⟨iff_of_true
      ⟨"Failed to capture Illustrator window: " ++ env.captureResult.stderr,
        by simp [captureContent, h1]⟩ (Or.inl h1), ?_⟩
    intro hc
    exact absurd (Or.inl h1) hc
  case pos =>
    cases hb : pyStartsWith (pyStrip env.captureResult.stdout) "ERROR:" with
    | true =>
        refine ⟨iff_of_true
          ⟨"Failed to capture Illustrator: " ++ pyStrip env.captureResult.stdout,
            by simp [captureContent, h1, hb]⟩
          (Or.inr (Or.inl hb)), ?_⟩
        intro hc
        exact absurd (Or.inr (Or.inl hb)) hc
    | false =>
        rcases hfs : env.fileSize env.screenshotPath with _ | n
        · refine ⟨iff_of_true
            ⟨"Screenshot file was not created or is empty",
              by simp [captureContent, h1, hb, hfs]⟩
            (Or.inr (Or.inr (Or.inl hfs))), ?_⟩
          intro hc
          exact absurd (Or.inr (Or.inr (Or.inl hfs))) hc
        · by_cases h4 : n = 0
          · subst h4
            refine ⟨iff_of_true
              ⟨"Screenshot file was not created or is empty",
                by simp [captureContent, h1, hb, hfs]⟩
              (Or.inr (Or.inr (Or.inr hfs))), ?_⟩
            intro hc
            exact absurd (Or.inr (Or.inr (Or.inr hfs))) hc
          · have hsucc : captureContent env =
                [Content.image "image/jpeg" (env.b64encode (env.saveJPEG
                  (if img.mode = "RGBA" ∨ img.mode = "LA" then env.convertRGB img
                   else img) 85))] := by
              simp [captureContent, h1, hb, hfs, h4, himg]
            have hnc : ¬ captureErrCond env := by
              rintro (hc | hc | hc | hc)
              · exact hc h1
              · rw [hb] at hc
                cases hc
              · rw [hfs] at hc
                cases hc
              · rw [hfs] at hc
                exact h4 (Option.some.inj hc)
            refine ⟨iff_of_false ?_ hnc, fun _ => hsucc⟩
            rintro ⟨s, hs⟩
            rw [hsucc] at hs
            simp at hs

/-- Witness for C5 on a concrete successful capture environment. -/
theorem c5_view_mapping_witness :
    cenv0.openImage cenv0.screenshotPath = Except.ok { mode := "RGBA", payload := 7 } ∧
    ¬ captureErrCond cenv0 ∧
    captureContent cenv0 = [Content.image "image/jpeg" "B64JPEGBYTES"] := by
  refine ⟨rfl, ?_, ?_⟩
  · decide
  · have h := (c5_view_mapping cenv0 { mode := "RGBA", payload := 7 } rfl).2 (by decide)
    rw [h]
    decide

/-- Claim C9: every response carries exactly one content item — the view
pathway returns one text item or one `image/jpeg` image item, the run
pathway always returns one text item and never an image, and every
dispatched call's response has exactly one content item. -/
theorem c9_single_content_item :
    (∀ env : CaptureEnv,
        (∃ s, (captureIllustrator env).content = [Content.text s]) ∨
        (∃ d, (captureIllustrator env).content = [Content.image "image/jpeg" d])) ∧
    (∀ (renv : RunEnv) (code : String),
        ∃ s, (runIllustratorScript renv code).1 = [Content.text s]) ∧
    (∀ (cenv : CaptureEnv) (renv : RunEnv) (name : String)
        (arguments : Option (List (String × String))),
        (dispatch cenv renv name arguments).content.length = 1) := by
  refine ⟨fun env => captureContent_shape env, runIllustratorScript_text, ?_⟩
  intro cenv renv name arguments
  by_cases hv : name = "view"
  · subst hv
    have h := captureContent_shape cenv
    rcases h with ⟨s, hs⟩ | ⟨d, hd⟩
    · simp [dispatch, handleCallTool, protocolBoundary, captureIllustrator] at hs ⊢
      rw [hs]
      rfl
    · simp [dispatch, handleCallTool, protocolBoundary, captureIllustrator] at hd ⊢
      rw [hd]
      rfl
  · by_cases hr : name = "run"
    · subst hr
      rcases arguments with _ | args
      · simp [dispatch, handleCallTool, protocolBoundary]
      · rcases hl : args.lookup "code" with _ | code
        · simp [dispatch, handleCallTool, protocolBoundary, hl]
        · obtain ⟨s, hs⟩ := runIllustratorScript_text renv code
          simp [dispatch, handleCallTool, protocolBoundary, hl]
          rw [hs]
          rfl
    · simp [dispatch, handleCallTool, protocolBoundary, hv, hr]

end Illustrator
